import Mathlib

set_option linter.unusedVariables false

/-!
Verification development for `easymep.py`, a single-file deployment script:
it packages a local file or directory, copies the artifact to a remote host
with `scp`, and streams a fixed sequence of shell instructions into one
`ssh` session to swap the remote `backend/` directory, optionally restarting
the `httpd` service.

Modelling conventions (shallow embedding of the Python source):
  * Python strings are Lean `String`s; Python's substring test `a in b` is
    `pyIn`, `s[:-n]` is `pyDropRight`, and `s.split("/")` is `splitSlash`
    (a character-level split keeping empty pieces, exactly like Python).
  * A `pathlib.Path` is modelled by its list of components (`List String`);
    `Path.parent` drops the last component, `p / child` appends one, and
    `str(path)` is `pathStr` (components joined by `/`).
  * The option list produced by `getopt` is a `List (String × String)` of
    (option name, argument) pairs, option names carrying their dashes
    exactly as `getopt` returns them (`"--local-path"`, `"-l"`, ...); the
    dict comprehension `{opt: arg for ...}` is `pyDictGet` (later pairs
    overwrite earlier ones).
  * The ambient world (filesystem existence, the clock read by
    `time.strftime`, the status returned by the `scp` call, and exceptions
    raised by the packaging / copy / session stages) is an explicit `Env`.
  * `main` is `mainModel`, returning the ordered list of external side
    effects (`Effect`) performed together with its outcome: a normal
    return of an `ExitCodes` value, or an exception escaping `main`
    (`MainResult.uncaught`).
  * Exception classes are collapsed to the constructors of `PyExnVal`;
    Python's `+` on a string and an exception object (which raises
    `TypeError`) is `pyAdd` on `PyVal`.
-/

namespace Easymep

/-- Substring test: Python's `needle in hay` on character lists. -/
def isInfixOfC (n : List Char) : List Char → Bool
  | [] => n.isEmpty
  | x :: xs => n.isPrefixOf (x :: xs) || isInfixOfC n xs

/-- Python's `needle in hay` for strings. -/
def pyIn (needle hay : String) : Bool :=
  isInfixOfC needle.data hay.data

/-- Python's slice `s[:-n]`: all characters but the last `n`. -/
def pyDropRight (s : String) (n : Nat) : String :=
  String.mk (s.data.take (s.data.length - n))

/-- Split a character list on every occurrence of `c`, keeping empty
pieces, exactly like Python's `str.split` with an explicit separator. -/
def splitOnChar (c : Char) : List Char → List (List Char)
  | [] => [[]]
  | x :: xs =>
    match splitOnChar c xs with
    | [] => [[]]
    | y :: ys => if x = c then [] :: y :: ys else (x :: y) :: ys

/-- Python's `s.split("/")`. -/
def splitSlash (s : String) : List String :=
  (splitOnChar '/' s.data).map String.mk

/-- Join character lists with `'/'` separators. -/
def joinSlashC : List (List Char) → List Char
  | [] => []
  | [x] => x
  | x :: y :: ys => x ++ '/' :: joinSlashC (y :: ys)

/-- Render a component-list path as the string `str(path)` yields. -/
def pathStr (p : List String) : String :=
  String.mk (joinSlashC (p.map String.data))

/-- Component-list model of `pathlib.Path.parent`. -/
def Path.parent (p : List String) : List String := p.dropLast

/-- Component-list model of `pathlib`'s `path / child`. -/
def Path.div (p : List String) (child : String) : List String := p ++ [child]

/-- Constant `OPTIONS_LIST_MIN` from the source. -/
def OPTIONS_LIST_MIN : Nat := 3

/-- Constant `OPTIONS_LIST_MAX` from the source. -/
def OPTIONS_LIST_MAX : Nat := 4

/-- Constant `ERROR_COLORS` from the source: `colorama.Fore.RED +
colorama.Back.BLACK`, the ANSI escape prefix used for error output. -/
def ERROR_COLORS : String := "\x1b[31m\x1b[40m"

/-- Enum `ExitCodes` from the source. -/
inductive ExitCodes where
  | SUCCESS
  | IO_ERROR
  | ATTRIBUTE_ERROR
  | GENERAL
deriving DecidableEq, Repr

/-- Numeric value of each `ExitCodes` member, as in the Python enum. -/
def ExitCodes.value : ExitCodes → Nat
  | .SUCCESS => 0
  | .IO_ERROR => 1
  | .ATTRIBUTE_ERROR => 2
  | .GENERAL => 3

/-- Exception classes that can arise in `main`, collapsed to their class:
`IOError` (= `OSError`, covers file-not-found and broken pipes),
`AttributeError`, `KeyError` (a failed dict lookup), `TypeError`
(e.g. adding a string to a non-string), and any other exception. -/
inductive PyExnVal where
  | ioError
  | attributeError
  | keyError
  | typeError
  | otherError
deriving DecidableEq, Repr

/-- Python runtime values occurring in the error handler: a string or an
exception object. -/
inductive PyVal where
  | str (s : String)
  | exn (e : PyExnVal)
deriving DecidableEq, Repr

/-- Python's `+`: concatenates two strings, raises `TypeError` when either
operand is not a string (in particular for `str + exception`). -/
def pyAdd : PyVal → PyVal → Except PyExnVal PyVal
  | .str a, .str b => .ok (.str (a ++ b))
  | _, _ => .error .typeError

/-- Outcome of a call to `main`: a returned exit code, or an exception
that escaped `main`'s own `try/except` blocks. -/
inductive MainResult where
  | exit (code : ExitCodes)
  | uncaught (e : PyExnVal)
deriving DecidableEq, Repr

/-- Embedding of `main`'s `except` clauses, tried in source order:
`IOError` and `AttributeError` are mapped to their exit codes; every other
exception reaches the generic `except Exception` handler, whose body
executes `print(ERROR_COLORS + ex)` before `return ExitCodes.GENERAL` —
`pyAdd` decides whether that statement itself raises. -/
def handleExn (e : PyExnVal) : MainResult :=
  match e with
  | .ioError => .exit .IO_ERROR
  | .attributeError => .exit .ATTRIBUTE_ERROR
  | e =>
    match pyAdd (.str ERROR_COLORS) (.exn e) with
    | .ok _ => .exit .GENERAL
    | .error t => .uncaught t

/-- Calendar date supplied by the ambient clock. -/
structure Date where
  day : Nat
  month : Nat
  year : Nat
deriving DecidableEq, Repr

/-- Zero-padded two-digit rendering used by `strftime` fields. -/
def pad2 (n : Nat) : String :=
  if n < 10 then "0" ++ toString n else toString n

/-- Embedding of `time.strftime("%d_%m_%y")`. -/
def strftimeDMY (d : Date) : String :=
  pad2 d.day ++ "_" ++ pad2 d.month ++ "_" ++ pad2 (d.year % 100)

/-- Body of the `for attribute in attributes` loop of
`__is_attributes_valid`: the `if/elif` chain marks slot 0 (local path),
1 (server) or 2 (server path) by substring tests, then — only when the
whole list has exactly `OPTIONS_LIST_MAX` entries — a separate `if` marks
slot 3 (restart flag). `n` is `len(attributes)`. -/
def validStep (n : Nat) (validation : List Bool) (attr : String) : List Bool :=
  let v1 :=
    if pyIn "local-path" attr || pyIn "l" attr then
      validation.set 0 true
    else if pyIn "server" attr || pyIn "s" attr then
      validation.set 1 true
    else if pyIn "server-path" attr || pyIn "d" attr then
      validation.set 2 true
    else validation
  if n = OPTIONS_LIST_MAX then
    if pyIn "restart-apache" attr || pyIn "a" attr then
      v1.set 3 true
    else v1
  else v1

/-- Embedding of `__is_attributes_valid`: start from
`[False for item in attributes]`, run the loop, and require `all(...)`. -/
def isAttributesValid (attributes : List String) : Bool :=
  (attributes.foldl (validStep attributes.length)
      (List.replicate attributes.length false)).all id

/-- Entry recorded by `tarfile.add(source, arcname)`. -/
structure TarEntry where
  arcname : String
  source : String
deriving DecidableEq, Repr

/-- Embedding of `__compress_local_file`: the archive is created at
`local_path.parent / "compressed_file.tar.bz2"` and receives a single
entry, the whole source tree under the fixed arcname `"compressed_file"`;
the function returns the archive path (and, in the model, the archive's
entry list). -/
def compressLocalFile (local_path : List String) : String × List TarEntry :=
  let tar_file_path := pathStr (Path.div (Path.parent local_path) "compressed_file.tar.bz2")
  (tar_file_path, [{ arcname := "compressed_file", source := pathStr local_path }])

/-- Embedding of `__ssh_processing`'s writes: the ordered list of
instruction strings written to the ssh session's stdin, each already
carrying its terminating line break, for the given transferred file name,
server path, restart flag and current date (`archive_name` is
`strftime("%d_%m_%y") + ".tar.bz2"`, `new_folder_name` is
`compressed_file_name[:-8]`). The server name only selects the session's
target host and does not occur in any instruction. -/
def sshProcessing (compressed_file_name server_name server_path : String)
    (restart_apache : Bool) (now : Date) : List String :=
  let archive_name := strftimeDMY now ++ ".tar.bz2"
  let new_folder_name := pyDropRight compressed_file_name 8
  ["cd " ++ server_path ++ "\n",
   "tar -cjf " ++ archive_name ++ " backend/\n",
   "mv ./" ++ archive_name ++ " ./archive\n",
   "rm -r ./backend\n",
   "tar jxf ./" ++ compressed_file_name ++ "\n",
   "rm ./" ++ compressed_file_name ++ "\n",
   "mv ./" ++ new_folder_name ++ " backend\n"]
  ++ (if restart_apache then ["systemctl restart httpd\n"] else [])

/-- Observable side effects performed by a run, in order: creation of the
empty archive file (`open(...).close()`), the `tarfile.add` call, the
single `scp` invocation (recording the status the external command
returned), the ssh session together with every line written into it, and
the final `os.remove` of the local artifact. -/
inductive Effect where
  | createFile (path : String)
  | tarAdd (tarPath srcPath arcname : String)
  | scp (src dst : String) (status : Int)
  | sshSession (server : String) (lines : List String)
  | removeFile (path : String)
deriving DecidableEq, Repr

/-- Ambient world of one run: which local paths exist, the current date,
the termination status of the `scp` command, and optional exceptions
raised by the packaging stage, the `scp` call, or the k-th session write
(`sshExn = some (k, e)` means the write of instruction `k` raises `e`
after the first `k` instructions were written). -/
structure Env where
  pathExists : String → Bool
  now : Date
  scpStatus : Int
  compressExn : Option PyExnVal
  scpExn : Option PyExnVal
  sshExn : Option (Nat × PyExnVal)

/-- Lookup in the dict built by `{option[0]: option[1] for option in
options_list}`: later pairs overwrite earlier ones. -/
def pyDictGet (pairs : List (String × String)) (k : String) : Option String :=
  pairs.foldl (fun acc p => if p.1 = k then some p.2 else acc) none

/-- Embedding of `mapping[k1] if k1 in mapping.keys() else mapping[k2]`:
the `else` branch raises `KeyError` when `k2` is absent too. -/
def pyGetEither (pairs : List (String × String)) (k1 k2 : String) :
    Except PyExnVal String :=
  match pyDictGet pairs k1 with
  | some v => .ok v
  | none =>
    match pyDictGet pairs k2 with
    | some v => .ok v
    | none => .error .keyError

/-- Embedding of `main` after `getopt`: takes the parsed option list and
the ambient `Env`, returns the ordered effect trace and the outcome.
Mirrors the source order: count check, `__is_attributes_valid`, local
path lookup and existence check, `__compress_local_file`, server-path and
server lookups, the `scp` call (status recorded, never inspected),
`__ssh_processing`, `os.remove`; every raised exception flows to
`handleExn`. -/
def mainModel (options_list : List (String × String)) (env : Env) :
    List Effect × MainResult :=
  if options_list.length < OPTIONS_LIST_MIN ∨ OPTIONS_LIST_MAX < options_list.length then
    ([], handleExn .attributeError)
  else if isAttributesValid (options_list.map Prod.fst) = false then
    ([], handleExn .attributeError)
  else
    match pyGetEither options_list "--local-path" "-l" with
    | .error e => ([], handleExn e)
    | .ok localPathStr =>
      if env.pathExists localPathStr = false then
        ([], handleExn .ioError)
      else
        let local_path := splitSlash localPathStr
        let compressed_file_path := (compressLocalFile local_path).1
        match env.compressExn with
        | some e => ([Effect.createFile compressed_file_path], handleExn e)
        | none =>
          let tr0 := [Effect.createFile compressed_file_path,
                      Effect.tarAdd compressed_file_path (pathStr local_path) "compressed_file"]
          match pyGetEither options_list "--server-path" "-d" with
          | .error e => (tr0, handleExn e)
          | .ok server_path =>
            match pyGetEither options_list "--server" "-s" with
            | .error e => (tr0, handleExn e)
            | .ok server_name =>
              let scpEff := Effect.scp compressed_file_path
                  (server_name ++ ":" ++ server_path) env.scpStatus
              match env.scpExn with
              | some e => (tr0 ++ [scpEff], handleExn e)
              | none =>
                let compressed_file_name := (splitSlash compressed_file_path).getLastD ""
                let lines := sshProcessing compressed_file_name server_name server_path
                    ((pyDictGet options_list "--restart-apache").isSome) env.now
                match env.sshExn with
                | some ke =>
                  (tr0 ++ [scpEff, Effect.sshSession server_name (lines.take ke.1)],
                   handleExn ke.2)
                | none =>
                  (tr0 ++ [scpEff, Effect.sshSession server_name lines,
                           Effect.removeFile compressed_file_path],
                   .exit .SUCCESS)

/-- Number of `scp` invocations recorded in a trace. -/
def countScp (tr : List Effect) : Nat :=
  (tr.filter fun e =>
    match e with
    | .scp _ _ _ => true
    | _ => false).length

/-- Forget the recorded termination status of an `scp` effect, keeping
everything else; used to state that the status influences nothing. -/
def eraseScpStatus : Effect → Effect
  | .scp src dst _ => .scp src dst 0
  | e => e

/-- Benign environment: every path exists, no stage raises. -/
def envOk : Env := ⟨fun _ => true, ⟨7, 4, 2024⟩, 0, none, none, none⟩

/-- Environment in which no local path exists. -/
def envNoPath : Env := ⟨fun _ => false, ⟨7, 4, 2024⟩, 0, none, none, none⟩

/-- Benign environment with a different clock. -/
def envOk26 : Env := ⟨fun _ => true, ⟨12, 10, 2026⟩, 0, none, none, none⟩

theorem splitOnChar_ne_nil (c : Char) (l : List Char) : splitOnChar c l ≠ [] := by
  induction l with
  | nil => simp [splitOnChar]
  | cons x xs ih =>
    simp only [splitOnChar]
    cases h : splitOnChar c xs with
    | nil => simp
    | cons y ys => by_cases hx : x = c <;> simp [hx]

theorem splitOnChar_of_not_mem (c : Char) (l : List Char) (h : c ∉ l) :
    splitOnChar c l = [l] := by
  induction l with
  | nil => rfl
  | cons x xs ih =>
    have hx : ¬ x = c := fun he => h (List.mem_cons.mpr (Or.inl he.symm))
    have hxs : c ∉ xs := fun hm => h (List.mem_cons_of_mem x hm)
    simp only [splitOnChar, ih hxs]
    simp [hx]

theorem two_le_splitOnChar_length (c : Char) (l : List Char) (h : c ∈ l) :
    2 ≤ (splitOnChar c l).length := by
  induction l with
  | nil => cases h
  | cons x xs ih =>
    simp only [splitOnChar]
    obtain ⟨y, ys, hy⟩ := List.exists_cons_of_ne_nil (splitOnChar_ne_nil c xs)
    rw [hy]
    by_cases hx : x = c
    · simp [hx]
    · have hxs : c ∈ xs := by
        rcases List.mem_cons.mp h with h1 | h1
        · exact absurd h1.symm hx
        · exact h1
      have h2 := ih hxs
      rw [hy] at h2
      simp only [List.length_cons] at h2 ⊢
      simp only [hx, if_false]
      simp only [List.length_cons]
      omega

theorem splitOnChar_cons (c x : Char) (xs : List Char) :
    splitOnChar c (x :: xs) =
      match splitOnChar c xs with
      | [] => [[]]
      | y :: ys => if x = c then [] :: y :: ys else (x :: y) :: ys := by
  simp only [splitOnChar]

theorem getLast?_splitOnChar_append (c : Char) (a b : List Char) :
    (splitOnChar c (a ++ c :: b)).getLast? = (splitOnChar c b).getLast? := by
  induction a with
  | nil =>
    obtain ⟨y, ys, hy⟩ := List.exists_cons_of_ne_nil (splitOnChar_ne_nil c b)
    have hstep : splitOnChar c ([] ++ c :: b) = [] :: y :: ys := by
      show splitOnChar c (c :: b) = _
      rw [splitOnChar_cons, hy]
      simp
    rw [hstep, hy]
    simp
  | cons x a ih =>
    obtain ⟨y, ys, hy⟩ := List.exists_cons_of_ne_nil
      (splitOnChar_ne_nil c (a ++ c :: b))
    have hlen : 2 ≤ (splitOnChar c (a ++ c :: b)).length :=
      two_le_splitOnChar_length c _ (by simp)
    rw [hy] at hlen ih
    have hstep : splitOnChar c (x :: a ++ c :: b) =
        if x = c then [] :: y :: ys else (x :: y) :: ys := by
      show splitOnChar c (x :: (a ++ c :: b)) = _
      rw [splitOnChar_cons, hy]
    rw [hstep]
    have hys : ys ≠ [] := by
      intro he
      rw [he] at hlen
      simp at hlen
    obtain ⟨z, zs, rfl⟩ := List.exists_cons_of_ne_nil hys
    by_cases hx : x = c
    · simpa [hx] using ih
    · simp only [hx, if_false]
      simpa [List.getLast?_cons_cons] using ih

theorem joinSlashC_cons (z : List Char) (l : List (List Char)) (h : l ≠ []) :
    joinSlashC (z :: l) = z ++ '/' :: joinSlashC l := by
  obtain ⟨y, ys, rfl⟩ := List.exists_cons_of_ne_nil h
  rfl

theorem getLast?_splitOnChar_joinSlashC (ws : List (List Char)) (w : List Char)
    (hw : '/' ∉ w) :
    (splitOnChar '/' (joinSlashC (ws ++ [w]))).getLast? = some w := by
  induction ws with
  | nil => simp [joinSlashC, splitOnChar_of_not_mem _ _ hw]
  | cons z zs ih =>
    rw [List.cons_append, joinSlashC_cons z (zs ++ [w]) (by simp),
      getLast?_splitOnChar_append]
    exact ih

theorem artifact_basename (cs : List String) :
    (splitSlash (compressLocalFile cs).1).getLastD "" = "compressed_file.tar.bz2" := by
  show (splitSlash (pathStr (Path.div (Path.parent cs) "compressed_file.tar.bz2"))).getLastD ""
      = "compressed_file.tar.bz2"
  unfold splitSlash pathStr Path.div Path.parent
  rw [List.getLastD_eq_getLast?, List.getLast?_map]
  show ((splitOnChar '/'
      (joinSlashC ((cs.dropLast ++ ["compressed_file.tar.bz2"]).map String.data))).getLast?.map
        String.mk).getD "" = "compressed_file.tar.bz2"
  rw [List.map_append]
  rw [show (["compressed_file.tar.bz2"].map String.data)
      = ["compressed_file.tar.bz2".data] from rfl]
  rw [getLast?_splitOnChar_joinSlashC _ _ (by decide)]
  rfl

theorem artifact_basename_getD (cs : List String) :
    ((splitSlash (compressLocalFile cs).1).getLast?).getD "" = "compressed_file.tar.bz2" := by
  have h := artifact_basename cs
  rwa [List.getLastD_eq_getLast?] at h

theorem handleExn_eq_success_iff (e : PyExnVal) :
    handleExn e = MainResult.exit ExitCodes.SUCCESS ↔ False := by
  cases e <;> simp [handleExn, pyAdd]

theorem validStep_slot3 (n : Nat) (v : List Bool) (a : String)
    (h : (pyIn "restart-apache" a || pyIn "a" a) = false) :
    (validStep n v a)[3]? = v[3]? := by
  unfold validStep
  simp only [h, Bool.false_eq_true, if_false, ite_self]
  split
  · exact List.getElem?_set_ne (by decide)
  split
  · exact List.getElem?_set_ne (by decide)
  split
  · exact List.getElem?_set_ne (by decide)
  rfl

theorem foldl_validStep_slot3 (n : Nat) (attrs : List String) (v : List Bool)
    (h : ∀ a ∈ attrs, (pyIn "restart-apache" a || pyIn "a" a) = false) :
    (attrs.foldl (validStep n) v)[3]? = v[3]? := by
  induction attrs generalizing v with
  | nil => rfl
  | cons a as ih =>
    rw [List.foldl_cons, ih _ (fun x hx => h x (List.mem_cons_of_mem a hx)),
      validStep_slot3 n v a (h a (List.mem_cons_self a as))]

/-- C2 (code_bug evidence): a run supplying exactly the three mandatory
parameters by their long spellings is rejected: `__is_attributes_valid`
returns `False` on the attribute list `["--local-path", "--server",
"--server-path"]` — because `"--server-path"` contains the substring
`"server"`, the `elif` chain marks the server slot instead of the
server-path slot — and `main` exits with `ATTRIBUTE_ERROR` for it, with
no side effect performed. -/
theorem C2_long_spellings_rejected :
    isAttributesValid ["--local-path", "--server", "--server-path"] = false ∧
    mainModel [("--local-path", "/tmp/app"), ("--server", "example.org"),
        ("--server-path", "/srv/www")] envOk
      = ([], MainResult.exit ExitCodes.ATTRIBUTE_ERROR) := by
  constructor
  · decide
  · decide

/-- C3 (code_bug evidence): a run supplying the restart flag only by its
short spelling `-a` reaches the remote session, yet the written sequence
has 7 instructions and `systemctl restart httpd` is not among them: the
source tests only for the key `'--restart-apache'`, which `getopt` never
produces for `-a`. -/
theorem C3_short_restart_flag_ignored :
    pyDictGet [("-l", "/tmp/app"), ("-s", "example.org"), ("-d", "/srv/www"), ("-a", "")]
        "--restart-apache" = none ∧
    mainModel [("-l", "/tmp/app"), ("-s", "example.org"), ("-d", "/srv/www"), ("-a", "")] envOk
      = ([Effect.createFile "/tmp/compressed_file.tar.bz2",
          Effect.tarAdd "/tmp/compressed_file.tar.bz2" "/tmp/app" "compressed_file",
          Effect.scp "/tmp/compressed_file.tar.bz2" "example.org:/srv/www" 0,
          Effect.sshSession "example.org"
            ["cd /srv/www\n", "tar -cjf 07_04_24.tar.bz2 backend/\n",
             "mv ./07_04_24.tar.bz2 ./archive\n", "rm -r ./backend\n",
             "tar jxf ./compressed_file.tar.bz2\n", "rm ./compressed_file.tar.bz2\n",
             "mv ./compressed_file backend\n"],
          Effect.removeFile "/tmp/compressed_file.tar.bz2"],
         MainResult.exit ExitCodes.SUCCESS) ∧
    "systemctl restart httpd\n" ∉
      ["cd /srv/www\n", "tar -cjf 07_04_24.tar.bz2 backend/\n",
       "mv ./07_04_24.tar.bz2 ./archive\n", "rm -r ./backend\n",
       "tar jxf ./compressed_file.tar.bz2\n", "rm ./compressed_file.tar.bz2\n",
       "mv ./compressed_file backend\n"] := by
  refine ⟨by decide, by decide, by decide⟩

/-- C4 (code_bug evidence): the generic `except Exception` handler never
returns `GENERAL`: its body evaluates `ERROR_COLORS + ex` with `ex` an
exception object, which raises `TypeError`, so every exception that is
neither `IOError` nor `AttributeError` escapes `main` as an uncaught
`TypeError`. Exhibited on a concrete run in which a `KeyError` (missing
`--server`/`-s` key) reaches the handler. -/
theorem C4_general_handler_raises :
    handleExn PyExnVal.keyError = MainResult.uncaught PyExnVal.typeError ∧
    handleExn PyExnVal.typeError = MainResult.uncaught PyExnVal.typeError ∧
    handleExn PyExnVal.otherError = MainResult.uncaught PyExnVal.typeError ∧
    (mainModel [("-l", "x"), ("--restart-apache", ""), ("-d", "p"), ("-a", "")] envOk).2
      = MainResult.uncaught PyExnVal.typeError ∧
    MainResult.uncaught PyExnVal.typeError ≠ MainResult.exit ExitCodes.GENERAL := by
  refine ⟨by decide, by decide, by decide, by decide, by decide⟩

/-- C5 (counterexample): when the local source path does not exist, the
outcome the run reports is the I/O code `IO_ERROR`, not the
request-validation code `ATTRIBUTE_ERROR` that the claim names (the side
effect trace is indeed empty). -/
theorem C5_io_not_validation_outcome :
    mainModel [("-l", "/nope"), ("-s", "h"), ("-d", "/srv")] envNoPath
      = ([], MainResult.exit ExitCodes.IO_ERROR) ∧
    MainResult.exit ExitCodes.IO_ERROR ≠ MainResult.exit ExitCodes.ATTRIBUTE_ERROR := by
  refine ⟨by decide, by decide⟩

/-- C5 (amended): if the supplied options pass the count and attribute
checks but the resolved local source path does not exist, the run performs
zero side effects and returns the I/O error outcome `IO_ERROR`. -/
theorem C5_nonexistent_path_aborts (opts : List (String × String)) (env : Env)
    (lp : String)
    (h1 : OPTIONS_LIST_MIN ≤ opts.length) (h2 : opts.length ≤ OPTIONS_LIST_MAX)
    (h3 : isAttributesValid (opts.map Prod.fst) = true)
    (h4 : pyGetEither opts "--local-path" "-l" = Except.ok lp)
    (h5 : env.pathExists lp = false) :
    mainModel opts env = ([], MainResult.exit ExitCodes.IO_ERROR) := by
  have hn : ¬ (opts.length < OPTIONS_LIST_MIN ∨ OPTIONS_LIST_MAX < opts.length) := by
    omega
  have hv : ¬ (isAttributesValid (opts.map Prod.fst) = false) := by
    simp [h3]
  simp [mainModel, hn, hv, h4, h5, handleExn]

/-- Witness for `C5_nonexistent_path_aborts` at a concrete input. -/
theorem C5_nonexistent_path_aborts_witness :
    mainModel [("-l", "/ghost"), ("-s", "h2"), ("-d", "/d2")] envNoPath
      = ([], MainResult.exit ExitCodes.IO_ERROR) :=
  C5_nonexistent_path_aborts [("-l", "/ghost"), ("-s", "h2"), ("-d", "/d2")]
    envNoPath "/ghost" (by decide) (by decide) (by decide) rfl rfl

/-- C6 (code_bug evidence): the attribute list `["-l", "--server-path",
"-d"]` has the required server host missing from the supplied set, yet
`__is_attributes_valid` accepts it (`"--server-path"` contains `"server"`
and wrongly marks the server slot); the run then creates the local
artifact — a filesystem side effect — and ends with an uncaught
`TypeError` (via the broken generic handler) instead of returning
`ATTRIBUTE_ERROR` before touching the filesystem. -/
theorem C6_missing_server_not_rejected :
    isAttributesValid ["-l", "--server-path", "-d"] = true ∧
    pyDictGet [("-l", "app"), ("--server-path", "/srv/www"), ("-d", "/srv/www")]
        "--server" = none ∧
    pyDictGet [("-l", "app"), ("--server-path", "/srv/www"), ("-d", "/srv/www")]
        "-s" = none ∧
    mainModel [("-l", "app"), ("--server-path", "/srv/www"), ("-d", "/srv/www")] envOk
      = ([Effect.createFile "compressed_file.tar.bz2",
          Effect.tarAdd "compressed_file.tar.bz2" "app" "compressed_file"],
         MainResult.uncaught PyExnVal.typeError) ∧
    MainResult.uncaught PyExnVal.typeError ≠ MainResult.exit ExitCodes.ATTRIBUTE_ERROR := by
  refine ⟨by decide, by decide, by decide, by decide, by decide⟩

/-- C9: for every local path, split as parent components plus basename,
the packager produces an archive whose sole top-level entry carries the
fixed arcname `compressed_file` (with the full original tree as content),
independent of the basename, and returns the archive path
`<parent>/compressed_file.tar.bz2`. -/
theorem C9_packager_fixed_entry (ps : List String) (b : String) :
    (compressLocalFile (ps ++ [b])).1 = pathStr (ps ++ ["compressed_file.tar.bz2"]) ∧
    (compressLocalFile (ps ++ [b])).2
      = [{ arcname := "compressed_file", source := pathStr (ps ++ [b]) }] := by
  constructor
  · show pathStr (Path.div (Path.parent (ps ++ [b])) "compressed_file.tar.bz2") = _
    unfold Path.div Path.parent
    rw [List.dropLast_concat]
  · rfl

/-- C10 (counterexample): a 4-option combination containing all three
mandatory parameters but no restart flag that nevertheless passes
attribute validation — `"--local-path"` contains the letter `a`, which is
enough to mark the restart slot. -/
theorem C10_fourth_option_need_not_be_restart :
    "--restart-apache" ∉ ["--local-path", "-s", "-d", "-d"] ∧
    "-a" ∉ ["--local-path", "-s", "-d", "-d"] ∧
    List.length ["--local-path", "-s", "-d", "-d"] = 4 ∧
    isAttributesValid ["--local-path", "-s", "-d", "-d"] = true := by
  refine ⟨by decide, by decide, by decide, by decide⟩

/-- C10 (amended): when exactly 4 options are supplied, attribute
validation can only succeed if some supplied option contains the
substring `restart-apache` or the letter `a` — the code's (over-broad)
notion of the restart flag being present. -/
theorem C10_slot3_needs_letter_a (attrs : List String)
    (hlen : attrs.length = 4) (hval : isAttributesValid attrs = true) :
    ∃ a ∈ attrs, (pyIn "restart-apache" a || pyIn "a" a) = true := by
  by_contra hc
  push_neg at hc
  have hall : ∀ a ∈ attrs, (pyIn "restart-apache" a || pyIn "a" a) = false := by
    intro a ha
    simpa using hc a ha
  have h3 : (attrs.foldl (validStep attrs.length)
          (List.replicate attrs.length false))[3]?
        = (List.replicate attrs.length false)[3]? :=
    foldl_validStep_slot3 _ _ _ hall
  rw [hlen] at h3
  have h4 : (List.replicate 4 false)[3]? = some false := by decide
  rw [h4] at h3
  unfold isAttributesValid at hval
  rw [hlen] at hval
  have hmem : false ∈ attrs.foldl (validStep 4) (List.replicate 4 false) :=
    List.getElem?_mem h3
  have hfalse := List.all_eq_true.mp hval false hmem
  simp at hfalse

/-- Witness for `C10_slot3_needs_letter_a` at a concrete input. -/
theorem C10_slot3_needs_letter_a_witness :
    ∃ a ∈ ["-l", "-s", "-d", "-a"], (pyIn "restart-apache" a || pyIn "a" a) = true :=
  C10_slot3_needs_letter_a ["-l", "-s", "-d", "-a"] (by decide) (by decide)

/-- C1: for every run whose session writes do not fail locally, whatever
instruction list some session in the trace received is exactly the
ordered sequence `cd <serverPath>`, `tar -cjf <DD_MM_YY>.tar.bz2
backend/`, `mv ./<DD_MM_YY>.tar.bz2 ./archive`, `rm -r ./backend`,
`tar jxf ./compressed_file.tar.bz2`, `rm ./compressed_file.tar.bz2`,
`mv ./compressed_file backend`, each newline-terminated, with the dated
archive name built from the run's current date by
`strftime("%d_%m_%y")`, followed by `systemctl restart httpd` exactly
when the run's restart flag is set — 7 instructions without restart, 8
with it. -/
theorem C1_remote_sequence (opts : List (String × String)) (env : Env)
    (hssh : env.sshExn = none) (server : String) (lines : List String)
    (hmem : Effect.sshSession server lines ∈ (mainModel opts env).1) :
    ∃ spath, pyGetEither opts "--server-path" "-d" = Except.ok spath ∧
      lines =
        ["cd " ++ spath ++ "\n",
         "tar -cjf " ++ strftimeDMY env.now ++ ".tar.bz2 backend/\n",
         "mv ./" ++ strftimeDMY env.now ++ ".tar.bz2 ./archive\n",
         "rm -r ./backend\n",
         "tar jxf ./compressed_file.tar.bz2\n",
         "rm ./compressed_file.tar.bz2\n",
         "mv ./compressed_file backend\n"] ++
        (if (pyDictGet opts "--restart-apache").isSome then
          ["systemctl restart httpd\n"] else []) ∧
      ((pyDictGet opts "--restart-apache").isSome = false → lines.length = 7) ∧
      ((pyDictGet opts "--restart-apache").isSome = true → lines.length = 8) := by
  by_cases h1 : opts.length < OPTIONS_LIST_MIN ∨ OPTIONS_LIST_MAX < opts.length
  · simp [mainModel, h1] at hmem
  by_cases h2 : isAttributesValid (opts.map Prod.fst) = false
  · simp [mainModel, h1, h2] at hmem
  rcases h3 : pyGetEither opts "--local-path" "-l" with e | lp
  · simp [mainModel, h1, h2, h3] at hmem
  by_cases h4 : env.pathExists lp = false
  · simp [mainModel, h1, h2, h3, h4] at hmem
  rcases h5 : env.compressExn with _ | e
  swap
  · simp [mainModel, h1, h2, h3, h4, h5] at hmem
  rcases h6 : pyGetEither opts "--server-path" "-d" with e | sp
  · simp [mainModel, h1, h2, h3, h4, h5, h6] at hmem
  rcases h7 : pyGetEither opts "--server" "-s" with e | sn
  · simp [mainModel, h1, h2, h3, h4, h5, h6, h7] at hmem
  rcases h8 : env.scpExn with _ | e
  swap
  · simp [mainModel, h1, h2, h3, h4, h5, h6, h7, h8] at hmem
  simp [mainModel, h1, h2, h3, h4, h5, h6, h7, h8, hssh] at hmem
  obtain ⟨hserver, hlines⟩ := hmem
  rw [artifact_basename_getD] at hlines
  refine ⟨sp, rfl, ?_, ?_, ?_⟩
  · rw [hlines]
    simp only [sshProcessing]
    have e1 : pyDropRight "compressed_file.tar.bz2" 8 = "compressed_file" := by decide
    rw [e1]
    have e2 : (".tar.bz2" : String) ++ " backend/\n" = ".tar.bz2 backend/\n" := by decide
    have e3 : (".tar.bz2" : String) ++ " ./archive\n" = ".tar.bz2 ./archive\n" := by decide
    have e4 : ("compressed_file.tar.bz2" : String) ++ "\n" = "compressed_file.tar.bz2\n" := by
      decide
    have e5 : ("tar jxf ./" : String) ++ "compressed_file.tar.bz2\n"
        = "tar jxf ./compressed_file.tar.bz2\n" := by decide
    have e6 : ("rm ./" : String) ++ "compressed_file.tar.bz2\n"
        = "rm ./compressed_file.tar.bz2\n" := by decide
    have e7 : ("compressed_file" : String) ++ " backend\n" = "compressed_file backend\n" := by
      decide
    have e8 : ("mv ./" : String) ++ "compressed_file backend\n"
        = "mv ./compressed_file backend\n" := by decide
    simp only [String.append_assoc, e2, e3, e4, e5, e6, e7, e8]
  · intro h
    rw [hlines]
    simp [sshProcessing, h]
  · intro h
    rw [hlines]
    simp [sshProcessing, h]

/-- Witness for `C1_remote_sequence` at a concrete input. -/
theorem C1_remote_sequence_witness :
    ∃ spath,
      pyGetEither [("-l", "/tmp/app"), ("-s", "example.org"), ("-d", "/srv/www")]
          "--server-path" "-d" = Except.ok spath ∧
      ["cd /srv/www\n", "tar -cjf 12_10_26.tar.bz2 backend/\n",
       "mv ./12_10_26.tar.bz2 ./archive\n", "rm -r ./backend\n",
       "tar jxf ./compressed_file.tar.bz2\n", "rm ./compressed_file.tar.bz2\n",
       "mv ./compressed_file backend\n"] =
        ["cd " ++ spath ++ "\n",
         "tar -cjf " ++ strftimeDMY envOk26.now ++ ".tar.bz2 backend/\n",
         "mv ./" ++ strftimeDMY envOk26.now ++ ".tar.bz2 ./archive\n",
         "rm -r ./backend\n",
         "tar jxf ./compressed_file.tar.bz2\n",
         "rm ./compressed_file.tar.bz2\n",
         "mv ./compressed_file backend\n"] ++
        (if (pyDictGet [("-l", "/tmp/app"), ("-s", "example.org"), ("-d", "/srv/www")]
            "--restart-apache").isSome then
          ["systemctl restart httpd\n"] else []) ∧
      ((pyDictGet [("-l", "/tmp/app"), ("-s", "example.org"), ("-d", "/srv/www")]
          "--restart-apache").isSome = false →
        List.length
          ["cd /srv/www\n", "tar -cjf 12_10_26.tar.bz2 backend/\n",
           "mv ./12_10_26.tar.bz2 ./archive\n", "rm -r ./backend\n",
           "tar jxf ./compressed_file.tar.bz2\n", "rm ./compressed_file.tar.bz2\n",
           "mv ./compressed_file backend\n"] = 7) ∧
      ((pyDictGet [("-l", "/tmp/app"), ("-s", "example.org"), ("-d", "/srv/www")]
          "--restart-apache").isSome = true →
        List.length
          ["cd /srv/www\n", "tar -cjf 12_10_26.tar.bz2 backend/\n",
           "mv ./12_10_26.tar.bz2 ./archive\n", "rm -r ./backend\n",
           "tar jxf ./compressed_file.tar.bz2\n", "rm ./compressed_file.tar.bz2\n",
           "mv ./compressed_file backend\n"] = 8) :=
  C1_remote_sequence [("-l", "/tmp/app"), ("-s", "example.org"), ("-d", "/srv/www")]
    envOk26 rfl "example.org"
    ["cd /srv/www\n", "tar -cjf 12_10_26.tar.bz2 backend/\n",
     "mv ./12_10_26.tar.bz2 ./archive\n", "rm -r ./backend\n",
     "tar jxf ./compressed_file.tar.bz2\n", "rm ./compressed_file.tar.bz2\n",
     "mv ./compressed_file backend\n"] (by decide)

/-- C7: the local artifact is removed exactly on the success path and
only as the final action, directly after the completed remote session:
whenever a run returns `SUCCESS` its trace ends with the session followed
by the removal of the artifact created earlier in the same run, and
whenever any stage raised (so the outcome is not `SUCCESS`) no removal
occurs in the trace. -/
theorem C7_cleanup_iff_success (opts : List (String × String)) (env : Env) :
    ((mainModel opts env).2 = MainResult.exit ExitCodes.SUCCESS →
      ∃ pre server lines p,
        (mainModel opts env).1 = pre ++ [Effect.sshSession server lines, Effect.removeFile p] ∧
        Effect.createFile p ∈ pre) ∧
    (∀ p, Effect.removeFile p ∈ (mainModel opts env).1 →
      (mainModel opts env).2 = MainResult.exit ExitCodes.SUCCESS) := by
  by_cases h1 : opts.length < OPTIONS_LIST_MIN ∨ OPTIONS_LIST_MAX < opts.length
  · simp [mainModel, h1, handleExn_eq_success_iff]
  by_cases h2 : isAttributesValid (opts.map Prod.fst) = false
  · simp [mainModel, h1, h2, handleExn_eq_success_iff]
  rcases h3 : pyGetEither opts "--local-path" "-l" with e | lp
  · simp [mainModel, h1, h2, h3, handleExn_eq_success_iff]
  by_cases h4 : env.pathExists lp = false
  · simp [mainModel, h1, h2, h3, h4, handleExn_eq_success_iff]
  rcases h5 : env.compressExn with _ | e
  swap
  · simp [mainModel, h1, h2, h3, h4, h5, handleExn_eq_success_iff]
  rcases h6 : pyGetEither opts "--server-path" "-d" with e | sp
  · simp [mainModel, h1, h2, h3, h4, h5, h6, handleExn_eq_success_iff]
  rcases h7 : pyGetEither opts "--server" "-s" with e | sn
  · simp [mainModel, h1, h2, h3, h4, h5, h6, h7, handleExn_eq_success_iff]
  rcases h8 : env.scpExn with _ | e
  swap
  · simp [mainModel, h1, h2, h3, h4, h5, h6, h7, h8, handleExn_eq_success_iff]
  rcases h9 : env.sshExn with _ | ke
  · constructor
    · intro _
      refine ⟨[Effect.createFile (compressLocalFile (splitSlash lp)).1,
               Effect.tarAdd (compressLocalFile (splitSlash lp)).1
                 (pathStr (splitSlash lp)) "compressed_file",
               Effect.scp (compressLocalFile (splitSlash lp)).1
                 (sn ++ ":" ++ sp) env.scpStatus],
              sn,
              sshProcessing ((splitSlash (compressLocalFile (splitSlash lp)).1).getLastD "")
                sn sp (pyDictGet opts "--restart-apache").isSome env.now,
              (compressLocalFile (splitSlash lp)).1, ?_, ?_⟩
      · simp [mainModel, h1, h2, h3, h4, h5, h6, h7, h8, h9]
      · simp
    · intro p hp
      simp [mainModel, h1, h2, h3, h4, h5, h6, h7, h8, h9]
  · simp [mainModel, h1, h2, h3, h4, h5, h6, h7, h8, h9, handleExn_eq_success_iff]

/-- Witness for `C7_cleanup_iff_success` at a concrete input. -/
theorem C7_cleanup_iff_success_witness :
    (mainModel [("-l", "/opt/site"), ("-s", "h1"), ("-d", "/var/www"), ("-a", "")] envOk).2
        = MainResult.exit ExitCodes.SUCCESS ∧
    ∃ pre server lines p,
      (mainModel [("-l", "/opt/site"), ("-s", "h1"), ("-d", "/var/www"), ("-a", "")] envOk).1
          = pre ++ [Effect.sshSession server lines, Effect.removeFile p] ∧
      Effect.createFile p ∈ pre :=
  ⟨by decide,
   (C7_cleanup_iff_success [("-l", "/opt/site"), ("-s", "h1"), ("-d", "/var/www"), ("-a", "")]
     envOk).1 (by decide)⟩

/-- C8: the termination status of the single `scp` invocation does not
influence control flow: every trace records at most one `scp` attempt,
two runs differing only in the status `scp` returned produce the same
outcome and the same trace apart from the recorded status, and whenever
the `scp` call itself returned (with any status, no exception), the run
goes on to open the remote session. -/
theorem C8_scp_single_attempt_status_ignored (opts : List (String × String))
    (pe : String → Bool) (nw : Date) (ce sce : Option PyExnVal)
    (she : Option (Nat × PyExnVal)) (s1 s2 : Int) :
    countScp (mainModel opts ⟨pe, nw, s1, ce, sce, she⟩).1 ≤ 1 ∧
    ((mainModel opts ⟨pe, nw, s1, ce, sce, she⟩).1.map eraseScpStatus
        = (mainModel opts ⟨pe, nw, s2, ce, sce, she⟩).1.map eraseScpStatus ∧
      (mainModel opts ⟨pe, nw, s1, ce, sce, she⟩).2
        = (mainModel opts ⟨pe, nw, s2, ce, sce, she⟩).2) ∧
    (sce = none → ∀ src dst st,
      Effect.scp src dst st ∈ (mainModel opts ⟨pe, nw, s1, ce, sce, she⟩).1 →
      ∃ server lines,
        Effect.sshSession server lines ∈ (mainModel opts ⟨pe, nw, s1, ce, sce, she⟩).1) := by
  by_cases h1 : opts.length < OPTIONS_LIST_MIN ∨ OPTIONS_LIST_MAX < opts.length
  · simp [mainModel, h1, countScp]
  by_cases h2 : isAttributesValid (opts.map Prod.fst) = false
  · simp [mainModel, h1, h2, countScp]
  rcases h3 : pyGetEither opts "--local-path" "-l" with e | lp
  · simp [mainModel, h1, h2, h3, countScp]
  by_cases h4 : pe lp = false
  · simp [mainModel, h1, h2, h3, h4, countScp]
  rcases ce with _ | e
  swap
  · simp [mainModel, h1, h2, h3, h4, countScp]
  rcases h6 : pyGetEither opts "--server-path" "-d" with e | sp
  · simp [mainModel, h1, h2, h3, h4, h6, countScp]
  rcases h7 : pyGetEither opts "--server" "-s" with e | sn
  · simp [mainModel, h1, h2, h3, h4, h6, h7, countScp]
  rcases sce with _ | e
  swap
  · simp [mainModel, h1, h2, h3, h4, h6, h7, countScp, eraseScpStatus]
  rcases she with _ | ke
  · refine ⟨?_, ⟨?_, ?_⟩, ?_⟩
    · simp [mainModel, h1, h2, h3, h4, h6, h7, countScp]
    · simp [mainModel, h1, h2, h3, h4, h6, h7, eraseScpStatus]
    · simp [mainModel, h1, h2, h3, h4, h6, h7]
    · intro _ src dst st hmem
      refine ⟨sn,
        sshProcessing ((splitSlash (compressLocalFile (splitSlash lp)).1).getLastD "")
          sn sp (pyDictGet opts "--restart-apache").isSome nw, ?_⟩
      simp [mainModel, h1, h2, h3, h4, h6, h7]
  · refine ⟨?_, ⟨?_, ?_⟩, ?_⟩
    · simp [mainModel, h1, h2, h3, h4, h6, h7, countScp]
    · simp [mainModel, h1, h2, h3, h4, h6, h7, eraseScpStatus]
    · simp [mainModel, h1, h2, h3, h4, h6, h7]
    · intro _ src dst st hmem
      refine ⟨sn,
        (sshProcessing ((splitSlash (compressLocalFile (splitSlash lp)).1).getLastD "")
          sn sp (pyDictGet opts "--restart-apache").isSome nw).take ke.1, ?_⟩
      simp [mainModel, h1, h2, h3, h4, h6, h7]

/-- Witness for `C8_scp_single_attempt_status_ignored` at a concrete
input, with two distinct statuses `0` and `1`. -/
theorem C8_scp_single_attempt_status_ignored_witness :
    countScp (mainModel [("-l", "/x/app"), ("-s", "hh"), ("-d", "/dd")]
        ⟨fun _ => true, ⟨3, 3, 2003⟩, 0, none, none, none⟩).1 ≤ 1 ∧
    ((mainModel [("-l", "/x/app"), ("-s", "hh"), ("-d", "/dd")]
          ⟨fun _ => true, ⟨3, 3, 2003⟩, 0, none, none, none⟩).1.map eraseScpStatus
        = (mainModel [("-l", "/x/app"), ("-s", "hh"), ("-d", "/dd")]
          ⟨fun _ => true, ⟨3, 3, 2003⟩, 1, none, none, none⟩).1.map eraseScpStatus ∧
      (mainModel [("-l", "/x/app"), ("-s", "hh"), ("-d", "/dd")]
          ⟨fun _ => true, ⟨3, 3, 2003⟩, 0, none, none, none⟩).2
        = (mainModel [("-l", "/x/app"), ("-s", "hh"), ("-d", "/dd")]
          ⟨fun _ => true, ⟨3, 3, 2003⟩, 1, none, none, none⟩).2) ∧
    ∃ server lines,
      Effect.sshSession server lines ∈
        (mainModel [("-l", "/x/app"), ("-s", "hh"), ("-d", "/dd")]
          ⟨fun _ => true, ⟨3, 3, 2003⟩, 0, none, none, none⟩).1 := by
  have h := C8_scp_single_attempt_status_ignored
    [("-l", "/x/app"), ("-s", "hh"), ("-d", "/dd")]
    (fun _ => true) ⟨3, 3, 2003⟩ none none none 0 1
  exact ⟨h.1, h.2.1, h.2.2 rfl "/x/compressed_file.tar.bz2" "hh:/dd" 0 (by decide)⟩

/-- Witness for `C9_packager_fixed_entry` at a concrete input. -/
theorem C9_packager_fixed_entry_witness :
    (compressLocalFile (["", "home"] ++ ["site.txt"])).1
        = pathStr (["", "home"] ++ ["compressed_file.tar.bz2"]) ∧
    (compressLocalFile (["", "home"] ++ ["site.txt"])).2
        = [{ arcname := "compressed_file", source := pathStr (["", "home"] ++ ["site.txt"]) }] :=
  C9_packager_fixed_entry ["", "home"] "site.txt"

end Easymep
